import Mathlib

/-!
Shallow embedding of the `nonebot-adapter-ding` gateway
(`src/nonebot/adapters/ding/adapter.py` and `bot.py`), together with proofs
about its inbound webhook handling and outbound API-call path.

Modelling conventions:
* Python dictionaries decoded from JSON are association lists of
  `String × PyJson`; `dict.get` is first-match lookup.
* Machine time is passed in explicitly: `now_s` is the truncated value of
  `datetime.now().timestamp()` (seconds), `now_ms` the rounded value of
  `time.time() * 1000` (milliseconds).
* Fallible code returns `Except`; an uncaught Python exception is an
  `Except.error` carrying the exception's description.
* The HTTP transport is an explicit oracle `ApiRequest → ApiResponse`;
  the first component of the outbound call's result records the request
  that was issued (`none` when no request went out).
-/

/-- Values resulting from `json.loads`: the JSON data model. -/
inductive PyJson where
  | null : PyJson
  | bool (b : Bool) : PyJson
  | num (n : Int) : PyJson
  | str (s : String) : PyJson
  | arr (elems : List PyJson) : PyJson
  | obj (fields : List (String × PyJson)) : PyJson
  deriving Repr

mutual

/-- Structural (Python `==`) equality test on JSON values. -/
def PyJson.beq : PyJson → PyJson → Bool
  | .null, .null => true
  | .bool a, .bool b => a == b
  | .num a, .num b => a == b
  | .str a, .str b => a == b
  | .arr a, .arr b => PyJson.beqList a b
  | .obj a, .obj b => PyJson.beqFields a b
  | _, _ => false

/-- Elementwise equality on JSON arrays. -/
def PyJson.beqList : List PyJson → List PyJson → Bool
  | u :: us, w :: ws => PyJson.beq u w && PyJson.beqList us ws
  | [], [] => true
  | _, _ => false

/-- Elementwise equality on JSON object fields. -/
def PyJson.beqFields : List (String × PyJson) → List (String × PyJson) → Bool
  | (ka, va) :: us, (kb, vb) :: ws => ka == kb && PyJson.beq va vb && PyJson.beqFields us ws
  | [], [] => true
  | _, _ => false

end

mutual

theorem jsonBeq_iff : ∀ a b : PyJson, PyJson.beq a b = true ↔ a = b
  | .null, .null => by simp [PyJson.beq]
  | .bool a, .bool b => by simp [PyJson.beq]
  | .num a, .num b => by simp [PyJson.beq]
  | .str a, .str b => by simp [PyJson.beq]
  | .arr a, .arr b => by
      simp only [PyJson.beq, jsonBeqList_iff a b]
      constructor
      · intro h; rw [h]
      · intro h; cases h; rfl
  | .obj a, .obj b => by
      simp only [PyJson.beq, jsonBeqFields_iff a b]
      constructor
      · intro h; rw [h]
      · intro h; cases h; rfl
  | .null, .bool _ | .null, .num _ | .null, .str _ | .null, .arr _ | .null, .obj _
  | .bool _, .null | .bool _, .num _ | .bool _, .str _ | .bool _, .arr _ | .bool _, .obj _
  | .num _, .null | .num _, .bool _ | .num _, .str _ | .num _, .arr _ | .num _, .obj _
  | .str _, .null | .str _, .bool _ | .str _, .num _ | .str _, .arr _ | .str _, .obj _
  | .arr _, .null | .arr _, .bool _ | .arr _, .num _ | .arr _, .str _ | .arr _, .obj _
  | .obj _, .null | .obj _, .bool _ | .obj _, .num _ | .obj _, .str _ | .obj _, .arr _ => by
      simp [PyJson.beq]

theorem jsonBeqList_iff : ∀ a b : List PyJson, PyJson.beqList a b = true ↔ a = b
  | [], [] => by simp [PyJson.beqList]
  | u :: us, w :: ws => by
      simp only [PyJson.beqList, Bool.and_eq_true, jsonBeq_iff u w, jsonBeqList_iff us ws,
        List.cons.injEq]
  | [], _ :: _ => by simp [PyJson.beqList]
  | _ :: _, [] => by simp [PyJson.beqList]

theorem jsonBeqFields_iff : ∀ a b : List (String × PyJson), PyJson.beqFields a b = true ↔ a = b
  | [], [] => by simp [PyJson.beqFields]
  | (ka, va) :: us, (kb, vb) :: ws => by
      simp only [PyJson.beqFields, Bool.and_eq_true, jsonBeq_iff va vb,
        jsonBeqFields_iff us ws, List.cons.injEq, Prod.mk.injEq, beq_iff_eq, and_assoc]
  | [], _ :: _ => by simp [PyJson.beqFields]
  | _ :: _, [] => by simp [PyJson.beqFields]

end

instance : DecidableEq PyJson := fun a b =>
  if h : PyJson.beq a b = true then .isTrue ((jsonBeq_iff a b).mp h)
  else .isFalse (fun he => h ((jsonBeq_iff a b).mpr he))

deriving instance DecidableEq for Except

/-- Python `dict.get(key)` on a decoded JSON object: first matching field. -/
def jsonGet : List (String × PyJson) → String → Option PyJson
  | [], _ => none
  | (k, v) :: rest, key => if k = key then some v else jsonGet rest key

/-! ## Percent-encoding (`urllib.parse.quote_plus` / `unquote_plus`) -/

/-- Uppercase hexadecimal digit, as produced by `urllib.parse.quote`. -/
def hexDigitChar (n : Nat) : Char :=
  if n < 10 then Char.ofNat (48 + n)
  else if n < 15 then Char.ofNat (65 + (n - 10))
  else 'F'

/-- Value of one hexadecimal digit (either case), as accepted by `unquote`:
digits, then the uppercase and lowercase letter ranges, by code point. -/
def hexVal (c : Char) : Option Nat :=
  let n := c.toNat
  if 48 ≤ n ∧ n ≤ 57 then some (n - 48)
  else if 65 ≤ n ∧ n ≤ 70 then some (n - 55)
  else if 97 ≤ n ∧ n ≤ 102 then some (n - 87)
  else none

/-- Characters `urllib.parse.quote` leaves unescaped (`ALWAYS_SAFE`, with
the default empty `safe` argument of `quote_plus`). -/
def isPySafe (c : Char) : Bool :=
  c.isAlphanum || c = '-' || c = '_' || c = '.' || c = '~'

/-- Encoding of one byte under `quote_plus`. -/
def quotePlusChar (c : Char) : List Char :=
  if isPySafe c then [c]
  else if c = ' ' then ['+']
  else ['%', hexDigitChar (c.toNat / 16), hexDigitChar (c.toNat % 16)]

/-- Encoding of a byte string under `quote_plus`. -/
def quotePlusChars : List Char → List Char
  | [] => []
  | c :: rest => quotePlusChar c ++ quotePlusChars rest

mutual

/-- Decoding under `unquote_plus`: `+` becomes a space, `%XY` becomes the
byte `0xXY`, an ill-formed escape is left as-is. -/
def unquotePlusChars : List Char → List Char
  | [] => []
  | c :: rest =>
    if c = '+' then ' ' :: unquotePlusChars rest
    else if c = '%' then unquotePct rest
    else c :: unquotePlusChars rest
termination_by l => 2 * l.length

/-- Decoding of what follows a `%`. -/
def unquotePct : List Char → List Char
  | h1 :: h2 :: rest2 =>
    match hexVal h1, hexVal h2 with
    | some a, some b => Char.ofNat (16 * a + b) :: unquotePlusChars rest2
    | _, _ => '%' :: unquotePlusChars (h1 :: h2 :: rest2)
  | l => '%' :: unquotePlusChars l
termination_by l => 2 * l.length + 1

end

/-- The percent-encoder, on strings. -/
def quotePlus (s : String) : String := ⟨quotePlusChars s.data⟩

/-- The percent-decoder, on strings. -/
def unquotePlus (s : String) : String := ⟨unquotePlusChars s.data⟩

/-! ## Signing (`utils.calc_hmac_base64`, modelled from the spec) -/

/-- Character of the standard base64 alphabet; call sites always pass a
sextet reduced modulo 64, so the final catch-all is never reached with a
meaningful argument. -/
def base64Char (n : Nat) : Char :=
  if n < 26 then Char.ofNat (65 + n)
  else if n < 52 then Char.ofNat (97 + (n - 26))
  else if n < 62 then Char.ofNat (48 + (n - 52))
  else if n = 62 then '+'
  else '/'

/-- Standard base64 encoding of a byte list (`base64.b64encode`). -/
def base64Encode : List Nat → List Char
  | [] => []
  | [b1] =>
    let n := b1 % 256 * 65536
    [base64Char (n / 262144 % 64), base64Char (n / 4096 % 64), '=', '=']
  | [b1, b2] =>
    let n := b1 % 256 * 65536 + b2 % 256 * 256
    [base64Char (n / 262144 % 64), base64Char (n / 4096 % 64), base64Char (n / 64 % 64), '=']
  | b1 :: b2 :: b3 :: rest =>
    let n := b1 % 256 * 65536 + b2 % 256 * 256 + b3 % 256
    base64Char (n / 262144 % 64) :: base64Char (n / 4096 % 64) ::
      base64Char (n / 64 % 64) :: base64Char (n % 64) :: base64Encode rest

/-- Modelled from the spec: `utils.py` is not under `src/`. The spec fixes
the signature scheme only as "compute a keyed signature over a timestamp":
a deterministic byte-valued (HMAC-style) function of the secret and the
message. Its internals are opaque to every claim, so a concrete
deterministic 32-byte digest stands in for the real `hmac.new(...).digest()`. -/
def hmacDigest (secret msg : String) : List Nat :=
  let input := secret.data.map Char.toNat ++ [0] ++ msg.data.map Char.toNat
  (List.range 32).map fun i => input.foldl (fun a b => (a * 31 + b + 7) % 256) (i % 256)

/-- Modelled from the spec: `utils.calc_hmac_base64` computes
`base64(HMAC(secret, timestamp))`; the adapter calls it as
`calc_hmac_base64(timestamp, secret)` and decodes the resulting bytes as
UTF-8, which the `String` return value absorbs. -/
def calc_hmac_base64 (msg secret : String) : String :=
  ⟨base64Encode (hmacDigest secret msg)⟩

/-! ## Signature verification (`Adapter._check_signature`) -/

/-- Python `str(x)` applied to an optional header value: `str(None)` is the
string `"None"`. -/
def pyStrOpt : Option String → String
  | none => "None"
  | some s => s

/-- Embedding of `Adapter._check_signature`: recompute
`calc_hmac_base64(str(timestamp), secret)` over the `timestamp` header and
compare it to the `sign` header for exact equality (a missing `sign` header
never equals a string, so the check fails). -/
def check_signature (secret : String) (timestampHeader signHeader : Option String) : Bool :=
  let sign_base64 := calc_hmac_base64 (pyStrOpt timestampHeader) secret
  signHeader == some sign_base64

/-! ## Event model (`event.py`, modelled from the spec) -/

/-- Modelled from the spec: `event.py` is not under `src/`. The private
conversation-type discriminator (`ConversationType.private`), `"1"` per the
spec's §8 example. -/
def conversationTypePrivate : String := "1"

/-- Modelled from the spec: the group conversation-type discriminator
(`ConversationType.group`), the other recognized value, `"2"`. -/
def conversationTypeGroup : String := "2"

/-- Modelled from the spec: the common fields of a parsed message event —
conversation identifier, sender identifier, conversation type tag,
session-reply address, and its expiry timestamp in epoch milliseconds. -/
structure DingEvent where
  conversationId : String
  senderId : String
  conversationType : String
  sessionWebhook : String
  sessionWebhookExpiredTime : Int
  deriving DecidableEq, Repr

/-- Modelled from the spec: pydantic `parse_obj` for
`PrivateMessageEvent`/`GroupMessageEvent` — each common field must be
present with the schema's type, otherwise parsing raises a validation
error (an `EventParseFailure` in the spec's taxonomy). -/
def parseMessageEvent (ct : String) (fields : List (String × PyJson)) : Except String DingEvent :=
  match jsonGet fields "conversationId", jsonGet fields "senderId",
      jsonGet fields "sessionWebhook", jsonGet fields "sessionWebhookExpiredTime" with
  | some (.str cid), some (.str sid), some (.str sw), some (.num t) =>
    .ok { conversationId := cid, senderId := sid, conversationType := ct,
          sessionWebhook := sw, sessionWebhookExpiredTime := t }
  | _, _, _, _ => .error "ValidationError"

/-! ## Bot registry and inbound handling (`Adapter._handle_http`) -/

/-- A `Bot` instance as the registry sees it: its identity is the
`chatbotCorpId` value it was created from (`Bot(self, bot_id)`). -/
structure DingBot where
  self_id : PyJson
  deriving DecidableEq, Repr

/-- Python `self.bots.get(bot_id, None)`: the registry is a mapping from
`chatbotCorpId` values to `Bot` instances (first match). -/
def botsGet : List (PyJson × DingBot) → PyJson → Option DingBot
  | [], _ => none
  | (k, b) :: rest, key => if k = key then some b else botsGet rest key

/-- An HTTP response produced by the inbound handler
(`Response(status, content=...)`). -/
structure WebResponse where
  status_code : Nat
  content : Option String
  deriving DecidableEq, Repr

/-- An inbound webhook request as `_handle_http` consumes it: the
`timestamp` and `sign` headers and the body. `content = none` models an
absent or empty body (falsy `request.content`); `content = some j` models
a present body whose `json.loads` yields `j`. -/
structure InboundRequest where
  timestampHeader : Option String
  signHeader : Option String
  content : Option PyJson
  deriving DecidableEq, Repr

/-- Everything observable of one `_handle_http` run: the HTTP response
returned (`none` models the bare `return` that produces no response), the
bot registry afterwards, the events handed to `bot.handle_event`, and the
log lines emitted. -/
structure HandleResult where
  response : Option WebResponse
  registry : List (PyJson × DingBot)
  dispatched : List DingEvent
  logs : List String
  deriving DecidableEq, Repr

/-- The `try` block of `_handle_http` that classifies the payload: read
`conversationType`, map the two recognized discriminators to the private
and group event parsers, and raise on anything else (a missing key raises
`KeyError`, also caught by the surrounding `except`). -/
def classifyPayload (fields : List (String × PyJson)) : Except String DingEvent :=
  match jsonGet fields "conversationType" with
  | none => .error "KeyError: conversationType"
  | some ct =>
    if ct = .str conversationTypePrivate then
      parseMessageEvent conversationTypePrivate fields
    else if ct = .str conversationTypeGroup then
      parseMessageEvent conversationTypeGroup fields
    else .error "ValueError: Unsupported conversation type"

/-- Embedding of `Adapter._handle_http`. An `Except.error` is an uncaught
Python exception escaping the handler (subscripting a non-object body or a
body without `chatbotCorpId` — both outside the `try` block). -/
def handleHttp (secret : String) (registry : List (PyJson × DingBot)) (req : InboundRequest) :
    Except String HandleResult :=
  if check_signature secret req.timestampHeader req.signHeader then
    match req.content with
    | none =>
      .ok { response := some ⟨400, some "Invalid request body"⟩, registry := registry,
            dispatched := [], logs := [] }
    | some json_data =>
      match json_data with
      | .obj fields =>
        match jsonGet fields "chatbotCorpId" with
        | none => .error "KeyError: chatbotCorpId"
        | some bot_id =>
          let found := botsGet registry bot_id
          let registry1 :=
            match found with
            | some _ => registry
            | none => (bot_id, ⟨bot_id⟩) :: registry
          let logs1 :=
            match found with
            | some _ => ([] : List String)
            | none => ["INFO Bot connected"]
          match classifyPayload fields with
          | .error _ =>
            .ok { response := none, registry := registry1, dispatched := [],
                  logs := logs1 ++ ["ERROR Event Parser Error"] }
          | .ok event =>
            .ok { response := some ⟨204, none⟩, registry := registry1, dispatched := [event],
                  logs := logs1 }
      | _ => .error "TypeError: body is not an object"
  else
    .ok { response := some ⟨401, none⟩, registry := registry, dispatched := [],
          logs := ["WARNING Signature Header is invalid"] }

/-- The registry left behind by one request (an uncaught exception is
raised before any registry mutation, so it leaves the registry as it was). -/
def registryAfter (secret : String) (registry : List (PyJson × DingBot)) (req : InboundRequest) :
    List (PyJson × DingBot) :=
  match handleHttp secret registry req with
  | .ok r => r.registry
  | .error _ => registry

/-- Registry evolution over a sequence of inbound requests. -/
def runSeq (secret : String) : List (PyJson × DingBot) → List InboundRequest → List (PyJson × DingBot)
  | registry, [] => registry
  | registry, req :: rest => runSeq secret (registryAfter secret registry req) rest

/-- Number of registry entries stored under a given `chatbotCorpId`. -/
def countKey (id : PyJson) (registry : List (PyJson × DingBot)) : Nat :=
  List.countP (fun p => decide (p.1 = id)) registry

/-- Whether a request makes the handler look up `id` in the registry: it
authenticates, carries an object body, and that body's `chatbotCorpId`
is `id`. -/
def observesB (secret : String) (req : InboundRequest) (id : PyJson) : Bool :=
  check_signature secret req.timestampHeader req.signHeader &&
    match req.content with
    | some (.obj fields) => decide (jsonGet fields "chatbotCorpId" = some id)
    | _ => false

/-! ## Outbound delivery (`Adapter._call_api`) -/

/-- Modelled from the spec: `message.py` is not under `src/`. A `Message`
is an ordered sequence of content fragments; only its truthiness (nonebot
messages are list-like, so an empty one is falsy) and the existence of a
wire serialization `_produce()` matter to the adapter. -/
structure DingMessage where
  segments : List PyJson
  deriving DecidableEq, Repr

/-- Modelled from the spec: `Message._produce()`, the serialization of the
ordered fragment list to the vendor's wire format. -/
def messageProduce (m : DingMessage) : PyJson :=
  .obj [("segments", .arr m.segments)]

/-- The keyword data `_call_api` reads: `webhook`, `secret`, `event`,
`message`, each absent (`none`) when the caller did not pass it. -/
structure ApiData where
  webhook : Option String
  secret : Option String
  event : Option DingEvent
  message : Option DingMessage
  deriving DecidableEq, Repr

/-- Python truthiness of an optional string: `None` and `""` are falsy. -/
def truthyStr : Option String → Option String
  | none => none
  | some s => if s = "" then none else some s

/-- The exceptions `_call_api` can raise. `networkError` keeps its cause
(`raise NetworkError(...) from e`). -/
inductive ApiError where
  | sessionExpired : ApiError
  | apiNotAvailable : ApiError
  | valueErr (msg : String) : ApiError
  | actionFailed (errcode errmsg : Option PyJson) : ApiError
  | networkError (msg : String) (cause : Option ApiError) : ApiError
  deriving Repr

/-- Structural equality test on `ApiError`. -/
def ApiError.beq : ApiError → ApiError → Bool
  | .sessionExpired, .sessionExpired => true
  | .apiNotAvailable, .apiNotAvailable => true
  | .valueErr a, .valueErr b => a == b
  | .actionFailed c1 m1, .actionFailed c2 m2 => decide (c1 = c2) && decide (m1 = m2)
  | .networkError m1 c1, .networkError m2 c2 =>
    m1 == m2 &&
      match c1, c2 with
      | none, none => true
      | some x, some y => ApiError.beq x y
      | _, _ => false
  | _, _ => false

theorem apiErrorBeq_iff : ∀ a b : ApiError, ApiError.beq a b = true ↔ a = b
  | .sessionExpired, .sessionExpired => by simp [ApiError.beq]
  | .apiNotAvailable, .apiNotAvailable => by simp [ApiError.beq]
  | .valueErr a, .valueErr b => by simp [ApiError.beq]
  | .actionFailed c1 m1, .actionFailed c2 m2 => by simp [ApiError.beq]
  | .networkError m1 none, .networkError m2 none => by simp [ApiError.beq]
  | .networkError m1 (some x), .networkError m2 (some y) => by
    simp [ApiError.beq, apiErrorBeq_iff x y]
  | .networkError m1 none, .networkError m2 (some _) => by simp [ApiError.beq]
  | .networkError m1 (some _), .networkError m2 none => by simp [ApiError.beq]
  | .sessionExpired, .apiNotAvailable | .sessionExpired, .valueErr _
  | .sessionExpired, .actionFailed _ _ | .sessionExpired, .networkError _ _
  | .apiNotAvailable, .sessionExpired | .apiNotAvailable, .valueErr _
  | .apiNotAvailable, .actionFailed _ _ | .apiNotAvailable, .networkError _ _
  | .valueErr _, .sessionExpired | .valueErr _, .apiNotAvailable
  | .valueErr _, .actionFailed _ _ | .valueErr _, .networkError _ _
  | .actionFailed _ _, .sessionExpired | .actionFailed _ _, .apiNotAvailable
  | .actionFailed _ _, .valueErr _ | .actionFailed _ _, .networkError _ _
  | .networkError _ _, .sessionExpired | .networkError _ _, .apiNotAvailable
  | .networkError _ _, .valueErr _ | .networkError _ _, .actionFailed _ _ => by
    simp [ApiError.beq]

instance : DecidableEq ApiError := fun a b =>
  if h : ApiError.beq a b = true then .isTrue ((apiErrorBeq_iff a b).mp h)
  else .isFalse (fun he => h ((apiErrorBeq_iff a b).mpr he))

/-- The outbound HTTP request `_call_api` builds. -/
structure ApiRequest where
  method : String
  url : String
  headers : List (String × String)
  params : List (String × String)
  timeout : Nat
  content : PyJson
  deriving DecidableEq, Repr

/-- The transport's answer: status code, and body (`none` models an absent
or empty body; `some j` a body whose `json.loads` yields `j`). -/
structure ApiResponse where
  status_code : Nat
  content : Option PyJson
  deriving DecidableEq, Repr

/-- Address and query-parameter resolution of `_call_api`: direct-webhook
mode (with optional signing from a fresh millisecond timestamp) when a
truthy `webhook` is supplied, otherwise session-reply mode off the event's
`sessionWebhook` guarded by its expiry, otherwise `ApiNotAvailable`.
The expiry check is `int(datetime.now().timestamp()) >
int(event.sessionWebhookExpiredTime / 1000)`, a strict comparison of
whole seconds (`Int.tdiv` truncates toward zero exactly as Python's
`int()` of a float quotient does). -/
def resolveTarget (d : ApiData) (now_s : Int) (now_ms : Nat) :
    Except ApiError (String × List (String × String)) :=
  match truthyStr d.webhook with
  | some w =>
    match truthyStr d.secret with
    | some sec =>
      let timestamp := toString now_ms
      let sign := quotePlus (calc_hmac_base64 timestamp sec)
      .ok (w, [("timestamp", timestamp), ("sign", sign)])
    | none => .ok (w, [])
  | none =>
    match d.event with
    | some ev =>
      if now_s > Int.tdiv ev.sessionWebhookExpiredTime 1000 then .error .sessionExpired
      else .ok (ev.sessionWebhook, [])
    | none => .error .apiNotAvailable

/-- Python `result.get("errcode") != 0`: a missing key (`None`) and every
non-numeric value are `!= 0`; an integer is compared numerically and a
boolean by `False == 0` / `True == 1`. -/
def pyNeqZero (v : Option PyJson) : Bool :=
  match v with
  | some (.num n) => !(n == 0)
  | some (.bool b) => b
  | _ => true

/-- Decoding of the transport's response, inside the `try` block: a 2xx
status with an empty body raises `ValueError`; a 2xx object body with a
nonzero `errcode` raises `ActionFailed`; a 2xx object body with `errcode`
zero is the success result; everything else falls through to
`raise NetworkError(unexpected status code)`. -/
def handleResponseBody (resp : ApiResponse) : Except ApiError PyJson :=
  if 200 ≤ resp.status_code ∧ resp.status_code < 300 then
    match resp.content with
    | none => .error (.valueErr "Empty response")
    | some result =>
      match result with
      | .obj fields =>
        if pyNeqZero (jsonGet fields "errcode") then
          .error (.actionFailed (jsonGet fields "errcode") (jsonGet fields "errmsg"))
        else .ok (.obj fields)
      | _ =>
        .error (.networkError
          ("HTTP request received unexpected status code: " ++ toString resp.status_code) none)
  else
    .error (.networkError
      ("HTTP request received unexpected status code: " ++ toString resp.status_code) none)

/-- The `except Exception as e: raise NetworkError("HTTP request failed")
from e` wrapper around the whole request/decode block: every exception
raised inside it — `ActionFailed` included — reaches the caller wrapped. -/
def wrapTry (r : Except ApiError PyJson) : Except ApiError PyJson :=
  match r with
  | .ok v => .ok v
  | .error e => .error (.networkError "HTTP request failed" (some e))

/-- Embedding of `Adapter._call_api`. The first component is the HTTP
request issued over the transport, `none` when the call failed before any
request went out. -/
def callApi (d : ApiData) (now_s : Int) (now_ms : Nat) (apiTimeout : Nat)
    (transport : ApiRequest → ApiResponse) : Option ApiRequest × Except ApiError PyJson :=
  match resolveTarget d now_s now_ms with
  | .error e => (none, .error e)
  | .ok (url, params) =>
    match d.message with
    | none => (none, .error (.valueErr "Message not found"))
    | some m =>
      if m.segments.isEmpty then (none, .error (.valueErr "Message not found"))
      else
        let req : ApiRequest :=
          { method := "POST", url := url, headers := [("Content-Type", "application/json")],
            params := params, timeout := apiTimeout, content := messageProduce m }
        (some req, wrapTry (handleResponseBody (transport req)))


/-! ## Concrete inputs used by witnesses and counterexamples -/

/-- An authenticated inbound request whose `conversationType` is the
unrecognized value `"3"`. -/
def reqC3 : InboundRequest :=
  { timestampHeader := some "170",
    signHeader := some (calc_hmac_base64 "170" "sk"),
    content := some (.obj [("chatbotCorpId", .str "B1"), ("conversationType", .str "3")]) }
/-- An authenticated inbound request carrying `chatbotCorpId` `"B1"`. -/
def reqC8 : InboundRequest :=
  { timestampHeader := some "1", signHeader := some (calc_hmac_base64 "1" "w"),
    content := some (.obj [("chatbotCorpId", .str "B1")]) }
/-- A session-reply event whose `sessionWebhook` expires at epoch
millisecond 1000000, that is at the whole second 1000. -/
def evC1 : DingEvent :=
  { conversationId := "c1", senderId := "u1", conversationType := "1",
    sessionWebhook := "https://session.example/reply", sessionWebhookExpiredTime := 1000000 }
/-- An already-expired session event: its expiry, epoch millisecond 1, is
long past any positive current time. -/
def evC10 : DingEvent :=
  { conversationId := "c10", senderId := "u10", conversationType := "2",
    sessionWebhook := "https://session.example/old", sessionWebhookExpiredTime := 1 }
/-- The direct-webhook call data of the C6 witness: explicit webhook,
per-webhook secret `"sec"`, and a one-fragment message. -/
def dC6 : ApiData :=
  { webhook := some "https://direct.example/hook", secret := some "sec",
    event := none, message := some ⟨[PyJson.str "hi"]⟩ }

/-- The request `dC6` issues at millisecond timestamp 1700. -/
def reqC6 : ApiRequest :=
  { method := "POST", url := "https://direct.example/hook",
    headers := [("Content-Type", "application/json")],
    params := [("timestamp", toString (1700 : Nat)),
      ("sign", quotePlus (calc_hmac_base64 (toString (1700 : Nat)) "sec"))],
    timeout := 5, content := .obj [("segments", .arr [PyJson.str "hi"])] }
/-- Whether an outbound failure is an `ActionFailed` at top level, i.e.
whether the caller observes an `ActionFailed` exception. -/
def isActionFailed : ApiError → Bool
  | .actionFailed _ _ => true
  | _ => false

/-- The direct-webhook call data of the C2 counterexample. -/
def dC2 : ApiData :=
  { webhook := some "https://x.example/hook", secret := none,
    event := none, message := some ⟨[PyJson.str "hello"]⟩ }

/-- A transport answering 200 with the vendor-error body
`{"errcode": 1, "errmsg": "bad"}`. -/
def trC2 : ApiRequest → ApiResponse :=
  fun _ => ⟨200, some (.obj [("errcode", .num 1), ("errmsg", .str "bad")])⟩
/-- The request `dC2` issues. -/
def reqC2 : ApiRequest :=
  { method := "POST", url := "https://x.example/hook",
    headers := [("Content-Type", "application/json")], params := [],
    timeout := 5, content := .obj [("segments", .arr [PyJson.str "hello"])] }

/-! ## Encoding lemmas -/

theorem hexVal_hexDigitChar : ∀ n, n < 16 → hexVal (hexDigitChar n) = some n := by decide

theorem unquote_cons_plus (l : List Char) :
    unquotePlusChars ('+' :: l) = ' ' :: unquotePlusChars l := by
  simp [unquotePlusChars]

theorem unquote_cons_safe (c : Char) (l : List Char) (h1 : c ≠ '+') (h2 : c ≠ '%') :
    unquotePlusChars (c :: l) = c :: unquotePlusChars l := by
  simp only [unquotePlusChars]
  rw [if_neg h1, if_neg h2]

theorem unquote_cons_pct (h1 h2 : Char) (l : List Char) (a b : Nat)
    (ha : hexVal h1 = some a) (hb : hexVal h2 = some b) :
    unquotePlusChars ('%' :: h1 :: h2 :: l) = Char.ofNat (16 * a + b) :: unquotePlusChars l := by
  simp [unquotePlusChars, unquotePct, ha, hb]

theorem isPySafe_ne_plus {c : Char} (h : isPySafe c = true) : c ≠ '+' := by
  intro he; subst he; simp [isPySafe, Char.isAlphanum, Char.isAlpha, Char.isUpper,
    Char.isLower, Char.isDigit] at h

theorem isPySafe_ne_pct {c : Char} (h : isPySafe c = true) : c ≠ '%' := by
  intro he; subst he; simp [isPySafe, Char.isAlphanum, Char.isAlpha, Char.isUpper,
    Char.isLower, Char.isDigit] at h

/-- Decoding inverts encoding on byte strings (characters below 256). -/
theorem unquote_quote_chars :
    ∀ l : List Char, (∀ c ∈ l, c.toNat < 256) → unquotePlusChars (quotePlusChars l) = l := by
  intro l
  induction l with
  | nil => intro _; simp [quotePlusChars, unquotePlusChars]
  | cons c rest ih =>
    intro hlt
    have hc : c.toNat < 256 := hlt c (by simp)
    have hrest : ∀ x ∈ rest, x.toNat < 256 := fun x hx => hlt x (by simp [hx])
    rw [quotePlusChars]
    by_cases hsafe : isPySafe c = true
    · rw [quotePlusChar, if_pos hsafe]
      simp only [List.cons_append, List.nil_append]
      rw [unquote_cons_safe c _ (isPySafe_ne_plus hsafe) (isPySafe_ne_pct hsafe), ih hrest]
    · rw [quotePlusChar, if_neg hsafe]
      by_cases hsp : c = ' '
      · rw [if_pos hsp]
        simp only [List.cons_append, List.nil_append]
        rw [unquote_cons_plus, ih hrest, hsp]
      · rw [if_neg hsp]
        simp only [List.cons_append, List.nil_append]
        have hdiv : c.toNat / 16 < 16 := by omega
        have hmod : c.toNat % 16 < 16 := by omega
        rw [unquote_cons_pct _ _ _ _ _ (hexVal_hexDigitChar _ hdiv) (hexVal_hexDigitChar _ hmod),
          ih hrest]
        congr 1
        have : 16 * (c.toNat / 16) + c.toNat % 16 = c.toNat := Nat.div_add_mod c.toNat 16
        rw [this, Char.ofNat_toNat]

theorem base64Char_mod_lt (n : Nat) : (base64Char (n % 64)).toNat < 256 := by
  have h : n % 64 < 64 := Nat.mod_lt _ (by omega)
  have hall : ∀ m, m < 64 → (base64Char m).toNat < 256 := by decide
  exact hall _ h

theorem base64Encode_lt : ∀ l : List Nat, ∀ c ∈ base64Encode l, c.toNat < 256
  | [] => by simp [base64Encode]
  | [b1] => by
    intro c hc
    simp only [base64Encode, List.mem_cons, List.not_mem_nil, or_false] at hc
    rcases hc with h | h | h | h <;> subst h
    · exact base64Char_mod_lt _
    · exact base64Char_mod_lt _
    · decide
    · decide
  | [b1, b2] => by
    intro c hc
    simp only [base64Encode, List.mem_cons, List.not_mem_nil, or_false] at hc
    rcases hc with h | h | h | h <;> subst h
    · exact base64Char_mod_lt _
    · exact base64Char_mod_lt _
    · exact base64Char_mod_lt _
    · decide
  | b1 :: b2 :: b3 :: rest => by
    intro c hc
    simp only [base64Encode, List.mem_cons] at hc
    rcases hc with h | h | h | h | h
    · subst h; exact base64Char_mod_lt _
    · subst h; exact base64Char_mod_lt _
    · subst h; exact base64Char_mod_lt _
    · subst h; exact base64Char_mod_lt _
    · exact base64Encode_lt rest c h

theorem calc_hmac_base64_lt (msg secret : String) :
    ∀ c ∈ (calc_hmac_base64 msg secret).data, c.toNat < 256 := by
  intro c hc
  exact base64Encode_lt _ c hc

/-- Decoding the percent-encoded signature recovers it exactly. -/
theorem unquote_quote_hmac (msg secret : String) :
    unquotePlus (quotePlus (calc_hmac_base64 msg secret)) = calc_hmac_base64 msg secret := by
  show String.mk (unquotePlusChars (quotePlusChars (calc_hmac_base64 msg secret).data)) = _
  rw [unquote_quote_chars _ (calc_hmac_base64_lt msg secret)]

/-! ## Registry lemmas -/

theorem botsGet_eq_none_iff (reg : List (PyJson × DingBot)) (id : PyJson) :
    botsGet reg id = none ↔ countKey id reg = 0 := by
  induction reg with
  | nil => simp [botsGet, countKey]
  | cons p rest ih =>
    obtain ⟨k, b⟩ := p
    by_cases hk : k = id
    · subst hk
      simp [botsGet, countKey, List.countP_cons]
    · simp only [botsGet, countKey, List.countP_cons, if_neg hk] at ih ⊢
      simpa [hk] using ih

theorem countKey_cons (id k : PyJson) (b : DingBot) (reg : List (PyJson × DingBot)) :
    countKey id ((k, b) :: reg) = countKey id reg + if k = id then 1 else 0 := by
  simp [countKey, List.countP_cons]


/-- Effect of one inbound request on the number of registry entries for a
given `chatbotCorpId`: a request that authenticates and carries that id
creates one entry when none exists; every other request leaves the count
alone. -/
theorem countKey_registryAfter (secret : String) (reg : List (PyJson × DingBot))
    (req : InboundRequest) (id : PyJson) :
    countKey id (registryAfter secret reg req) =
      if observesB secret req id = true ∧ countKey id reg = 0 then 1
      else countKey id reg := by
  by_cases hsig : check_signature secret req.timestampHeader req.signHeader
  case neg =>
    have hobs : observesB secret req id = false := by
      simp [observesB, eq_false_of_ne_true hsig]
    simp [registryAfter, handleHttp, eq_false_of_ne_true hsig, hobs]
  case pos =>
    rcases hc : req.content with _ | jd
    · have hobs : observesB secret req id = false := by simp [observesB, hc]
      simp [registryAfter, handleHttp, hsig, hc, hobs]
    · rcases jd with _ | b | n | st | elems | fields
      case null | bool | num | str | arr =>
        all_goals {
          have hobs : observesB secret req id = false := by simp [observesB, hc]
          simp [registryAfter, handleHttp, hsig, hc, hobs]
        }
      case obj =>
        rcases hg : jsonGet fields "chatbotCorpId" with _ | bot_id
        · have hobs : observesB secret req id = false := by simp [observesB, hc, hg]
          simp [registryAfter, handleHttp, hsig, hc, hg, hobs]
        · have hobs : observesB secret req id = decide (bot_id = id) := by
            simp [observesB, hsig, hc, hg]
          rcases hclass : classifyPayload fields with e | ev
          · rcases hfound : botsGet reg bot_id with _ | b
            · have hzero : countKey bot_id reg = 0 := (botsGet_eq_none_iff reg bot_id).mp hfound
              by_cases hid : bot_id = id
              · subst hid
                simp [registryAfter, handleHttp, hsig, hc, hg, hclass, hfound, hobs,
                  countKey_cons, hzero]
              · simp [registryAfter, handleHttp, hsig, hc, hg, hclass, hfound, hobs,
                  countKey_cons, hid]
            · have hnz : countKey bot_id reg ≠ 0 := by
                intro h0
                rw [← botsGet_eq_none_iff] at h0
                rw [hfound] at h0
                cases h0
              by_cases hid : bot_id = id
              · subst hid
                simp [registryAfter, handleHttp, hsig, hc, hg, hclass, hfound, hobs, hnz]
              · simp [registryAfter, handleHttp, hsig, hc, hg, hclass, hfound, hobs, hid]
          · rcases hfound : botsGet reg bot_id with _ | b
            · have hzero : countKey bot_id reg = 0 := (botsGet_eq_none_iff reg bot_id).mp hfound
              by_cases hid : bot_id = id
              · subst hid
                simp [registryAfter, handleHttp, hsig, hc, hg, hclass, hfound, hobs,
                  countKey_cons, hzero]
              · simp [registryAfter, handleHttp, hsig, hc, hg, hclass, hfound, hobs,
                  countKey_cons, hid]
            · have hnz : countKey bot_id reg ≠ 0 := by
                intro h0
                rw [← botsGet_eq_none_iff] at h0
                rw [hfound] at h0
                cases h0
              by_cases hid : bot_id = id
              · subst hid
                simp [registryAfter, handleHttp, hsig, hc, hg, hclass, hfound, hobs, hnz]
              · simp [registryAfter, handleHttp, hsig, hc, hg, hclass, hfound, hobs, hid]

/-- One request either leaves the registry alone or prepends exactly one
fresh entry whose key was not yet registered. -/
theorem registryAfter_cases (secret : String) (reg : List (PyJson × DingBot))
    (req : InboundRequest) :
    registryAfter secret reg req = reg ∨
      ∃ bot_id, botsGet reg bot_id = none ∧
        registryAfter secret reg req = (bot_id, ⟨bot_id⟩) :: reg := by
  by_cases hsig : check_signature secret req.timestampHeader req.signHeader
  case neg =>
    left
    simp [registryAfter, handleHttp, eq_false_of_ne_true hsig]
  case pos =>
    rcases hc : req.content with _ | jd
    · left; simp [registryAfter, handleHttp, hsig, hc]
    · rcases jd with _ | b | n | st | elems | fields
      case null | bool | num | str | arr =>
        all_goals { left; simp [registryAfter, handleHttp, hsig, hc] }
      case obj =>
        rcases hg : jsonGet fields "chatbotCorpId" with _ | bot_id
        · left; simp [registryAfter, handleHttp, hsig, hc, hg]
        · rcases hfound : botsGet reg bot_id with _ | b
          · right
            refine ⟨bot_id, hfound, ?_⟩
            rcases hclass : classifyPayload fields with e | ev <;>
              simp [registryAfter, handleHttp, hsig, hc, hg, hfound, hclass]
          · left
            rcases hclass : classifyPayload fields with e | ev <;>
              simp [registryAfter, handleHttp, hsig, hc, hg, hfound, hclass]

/-- A registered bot instance survives any single request unchanged. -/
theorem botsGet_registryAfter (secret : String) (reg : List (PyJson × DingBot))
    (req : InboundRequest) (id : PyJson) (b : DingBot) (h : botsGet reg id = some b) :
    botsGet (registryAfter secret reg req) id = some b := by
  rcases registryAfter_cases secret reg req with heq | ⟨bot_id, hnone, heq⟩
  · rw [heq]; exact h
  · rw [heq]
    have hne : bot_id ≠ id := by
      intro he; subst he; rw [h] at hnone; cases hnone
    simp [botsGet, hne, h]

/-- A registered bot instance survives any request sequence unchanged. -/
theorem botsGet_runSeq (secret : String) (id : PyJson) (b : DingBot) :
    ∀ (reqs : List InboundRequest) (reg : List (PyJson × DingBot)),
      botsGet reg id = some b → botsGet (runSeq secret reg reqs) id = some b := by
  intro reqs
  induction reqs with
  | nil => intro reg h; exact h
  | cons req rest ih =>
    intro reg h
    exact ih _ (botsGet_registryAfter secret reg req id b h)

/-- Evolution of the per-key entry count over a request sequence: a key
never seen stays at zero unless some request observes it, in which case it
rises to exactly one; a key already registered keeps its count. -/
theorem countKey_runSeq (secret : String) (id : PyJson) :
    ∀ (reqs : List InboundRequest) (reg : List (PyJson × DingBot)),
      countKey id (runSeq secret reg reqs) =
        if countKey id reg = 0 then
          (if reqs.any (fun req => observesB secret req id) then 1 else 0)
        else countKey id reg := by
  intro reqs
  induction reqs with
  | nil =>
    intro reg
    by_cases hz : countKey id reg = 0 <;> simp [runSeq, hz]
  | cons req rest ih =>
    intro reg
    have hstep := countKey_registryAfter secret reg req id
    by_cases hz : countKey id reg = 0
    · by_cases ho : observesB secret req id = true
      · have h1 : countKey id (registryAfter secret reg req) = 1 := by
          rw [hstep, if_pos ⟨ho, hz⟩]
        simp only [runSeq, ih, h1]
        simp [hz, ho, List.any_cons]
      · have h0 : countKey id (registryAfter secret reg req) = countKey id reg := by
          rw [hstep, if_neg]
          intro hand
          exact ho hand.1
        simp only [runSeq, ih, h0]
        simp [hz, eq_false_of_ne_true ho, List.any_cons]
    · have h0 : countKey id (registryAfter secret reg req) = countKey id reg := by
        rw [hstep, if_neg]
        intro hand
        exact hz hand.2
      simp only [runSeq, ih, h0]
      simp [hz]

/-! ## Claims about inbound handling -/

/-- C4: for every request carrying `timestamp` and `sign` headers and every
configured secret, `_check_signature` succeeds if and only if the `sign`
header equals the base64 of the HMAC of the `timestamp` header under the
secret, compared by exact string equality. -/
theorem claim_C4_signature_iff (secret ts sg : String) :
    check_signature secret (some ts) (some sg) = true ↔
      sg = calc_hmac_base64 ts secret := by
  simp [check_signature, pyStrOpt]

/-- C5: an inbound request failing signature verification is answered 401
and nothing else happens — for every possible request body (which is
therefore never parsed), the registry is returned unchanged, no event is
dispatched, and no bot is created. -/
theorem claim_C5_reject_401 (secret : String) (reg : List (PyJson × DingBot))
    (ts sg : Option String) (body : Option PyJson)
    (h : check_signature secret ts sg = false) :
    handleHttp secret reg ⟨ts, sg, body⟩ =
      .ok { response := some ⟨401, none⟩, registry := reg, dispatched := [],
            logs := ["WARNING Signature Header is invalid"] } := by
  simp [handleHttp, h]

theorem claim_C5_witness :
    check_signature "s" (some "t") (some "wrong") = false ∧
    handleHttp "s" [] ⟨some "t", some "wrong",
        some (.obj [("chatbotCorpId", .str "B1"), ("conversationType", .str "1")])⟩ =
      .ok { response := some ⟨401, none⟩, registry := [], dispatched := [],
            logs := ["WARNING Signature Header is invalid"] } :=
  ⟨by decide, claim_C5_reject_401 "s" [] (some "t") (some "wrong") _ (by decide)⟩

/-- Exhaustive shape of an inbound handler result's HTTP response. -/
theorem handleHttp_response_cases (secret : String) (reg : List (PyJson × DingBot))
    (req : InboundRequest) (r : HandleResult) (h : handleHttp secret reg req = .ok r) :
    r.response = some ⟨401, none⟩ ∨ r.response = some ⟨400, some "Invalid request body"⟩ ∨
      r.response = some ⟨204, none⟩ ∨ r.response = none := by
  by_cases hsig : check_signature secret req.timestampHeader req.signHeader
  case neg =>
    simp [handleHttp, eq_false_of_ne_true hsig] at h
    simp [← h]
  case pos =>
    rcases hc : req.content with _ | jd
    · simp [handleHttp, hsig, hc] at h
      simp [← h]
    · rcases jd with _ | b | n | st | elems | fields
      case null | bool | num | str | arr =>
        all_goals { simp [handleHttp, hsig, hc] at h }
      case obj =>
        rcases hg : jsonGet fields "chatbotCorpId" with _ | bot_id
        · simp [handleHttp, hsig, hc, hg] at h
        · rcases hclass : classifyPayload fields with e | ev <;>
            rcases hfound : botsGet reg bot_id with _ | b <;>
            · simp [handleHttp, hsig, hc, hg, hclass, hfound] at h
              simp [← h]

/-- C9: an authenticated request with an absent or empty body is answered
400 with an explanatory body, with no parsing, no dispatch, and no
registry change; and 401 and 400 are the only response codes at or above
400 the handler ever produces. -/
theorem claim_C9_missing_body (secret : String) (reg : List (PyJson × DingBot))
    (req : InboundRequest) :
    (check_signature secret req.timestampHeader req.signHeader = true → req.content = none →
      handleHttp secret reg req =
        .ok { response := some ⟨400, some "Invalid request body"⟩, registry := reg,
              dispatched := [], logs := [] })
    ∧ (∀ r resp, handleHttp secret reg req = .ok r → r.response = some resp →
        400 ≤ resp.status_code → resp.status_code = 400 ∨ resp.status_code = 401) := by
  constructor
  · intro hsig hc
    simp [handleHttp, hsig, hc]
  · intro r resp h hresp hge
    rcases handleHttp_response_cases secret reg req r h with h4 | h4 | h4 | h4 <;>
      rw [h4] at hresp
    · cases hresp; right; rfl
    · cases hresp; left; rfl
    · cases hresp; exact absurd hge (by decide)
    · cases hresp

theorem claim_C9_witness :
    handleHttp "s9" [] ⟨some "t9", some (calc_hmac_base64 "t9" "s9"), none⟩ =
      .ok { response := some ⟨400, some "Invalid request body"⟩, registry := [],
            dispatched := [], logs := [] } :=
  (claim_C9_missing_body "s9" [] ⟨some "t9", some (calc_hmac_base64 "t9" "s9"), none⟩).1
    (by decide) rfl

set_option maxRecDepth 8000

/-- C3 (amended): an authenticated request whose payload carries a
`conversationType` other than the two recognized discriminators has its
failure logged and dispatches no event, but the handler returns from the
`except` branch without producing any HTTP response (a bare `return`, not
a 204). -/
theorem claim_C3_unrecognized_type (secret : String) (reg : List (PyJson × DingBot))
    (req : InboundRequest) (fields : List (String × PyJson)) (cid ct : PyJson)
    (hsig : check_signature secret req.timestampHeader req.signHeader = true)
    (hbody : req.content = some (.obj fields))
    (hcorp : jsonGet fields "chatbotCorpId" = some cid)
    (hct : jsonGet fields "conversationType" = some ct)
    (h1 : ct ≠ .str conversationTypePrivate) (h2 : ct ≠ .str conversationTypeGroup) :
    ∃ r, handleHttp secret reg req = .ok r ∧ r.response = none ∧ r.dispatched = [] ∧
      "ERROR Event Parser Error" ∈ r.logs := by
  have hclass : classifyPayload fields = .error "ValueError: Unsupported conversation type" := by
    simp [classifyPayload, hct, h1, h2]
  rcases hfound : botsGet reg cid with _ | b
  · refine ⟨⟨none, (cid, DingBot.mk cid) :: reg, [],
        ["INFO Bot connected", "ERROR Event Parser Error"]⟩, ?_, rfl, rfl, by simp⟩
    simp [handleHttp, hsig, hbody, hcorp, hfound, hclass]
  · refine ⟨⟨none, reg, [], ["ERROR Event Parser Error"]⟩, ?_, rfl, rfl, by simp⟩
    simp [handleHttp, hsig, hbody, hcorp, hfound, hclass]

/-- C3 counterexample: on `reqC3` — authenticated, unrecognized
conversation type — the handler produces no HTTP response at all
(`response = none`, the bare `return` in the `except` branch), not a 204
as claimed. -/
theorem claim_C3_counterexample :
    check_signature "sk" reqC3.timestampHeader reqC3.signHeader = true ∧
    handleHttp "sk" [] reqC3 =
      .ok { response := none, registry := [(PyJson.str "B1", ⟨PyJson.str "B1"⟩)], dispatched := [],
            logs := ["INFO Bot connected", "ERROR Event Parser Error"] } := by
  exact ⟨by decide, by decide⟩

theorem claim_C3_witness :
    ∃ r, handleHttp "k" []
        ⟨some "ts", some (calc_hmac_base64 "ts" "k"),
          some (.obj [("chatbotCorpId", .str "C"), ("conversationType", .str "9")])⟩ =
        .ok r ∧ r.response = none ∧ r.dispatched = [] ∧
        "ERROR Event Parser Error" ∈ r.logs :=
  claim_C3_unrecognized_type "k" [] _ _ (.str "C") (.str "9") (by decide) rfl (by decide)
    (by decide) (by decide) (by decide)

/-- C8: over any sequence of inbound requests, a `chatbotCorpId` key with
at most one registry entry keeps at most one; a key not yet registered
gets exactly one entry as soon as some authenticated request carries it
(the first observation creates the Bot, later ones reuse it); and an
already-registered Bot instance is never replaced. -/
theorem claim_C8_registry_single (secret : String) (reg : List (PyJson × DingBot))
    (reqs : List InboundRequest) (id : PyJson) :
    (countKey id reg ≤ 1 → countKey id (runSeq secret reg reqs) ≤ 1)
    ∧ (countKey id reg = 0 →
        (∃ req, req ∈ reqs ∧ observesB secret req id = true) →
        countKey id (runSeq secret reg reqs) = 1)
    ∧ (∀ b, botsGet reg id = some b → botsGet (runSeq secret reg reqs) id = some b) := by
  refine ⟨?_, ?_, ?_⟩
  · intro h1
    rw [countKey_runSeq]
    by_cases hz : countKey id reg = 0
    · rw [if_pos hz]
      split <;> omega
    · rw [if_neg hz]
      exact h1
  · rintro hz ⟨req, hmem, hobs⟩
    rw [countKey_runSeq, if_pos hz, if_pos]
    exact List.any_eq_true.mpr ⟨req, hmem, hobs⟩
  · intro b hb
    exact botsGet_runSeq secret id b reqs reg hb

theorem claim_C8_witness :
    countKey (PyJson.str "B1") (runSeq "w" [] [reqC8, reqC8]) = 1 :=
  (claim_C8_registry_single "w" [] [reqC8, reqC8] (PyJson.str "B1")).2.1 (by decide)
    ⟨reqC8, by simp, by decide⟩

/-! ## Claims about outbound delivery -/

/-- Decomposition of a call that issued a request: target resolution
succeeded, the message was present and truthy, the issued request is the
one `_call_api` builds, and the call's outcome is the wrapped decoding of
the transport's answer to exactly that request. -/
theorem callApi_issued (d : ApiData) (now_s : Int) (now_ms apiTimeout : Nat)
    (transport : ApiRequest → ApiResponse) (req : ApiRequest)
    (h : (callApi d now_s now_ms apiTimeout transport).1 = some req) :
    ∃ url params m, resolveTarget d now_s now_ms = .ok (url, params) ∧
      d.message = some m ∧ m.segments.isEmpty = false ∧
      req = { method := "POST", url := url, headers := [("Content-Type", "application/json")],
              params := params, timeout := apiTimeout, content := messageProduce m } ∧
      (callApi d now_s now_ms apiTimeout transport).2 =
        wrapTry (handleResponseBody (transport req)) := by
  rcases hres : resolveTarget d now_s now_ms with e | ⟨url, params⟩
  · simp [callApi, hres] at h
  · rcases hm : d.message with _ | m
    · simp [callApi, hres, hm] at h
    · by_cases hempty : m.segments.isEmpty
      · simp [callApi, hres, hm, hempty] at h
      · refine ⟨url, params, m, rfl, rfl, by simpa using hempty, ?_, ?_⟩
        · simp [callApi, hres, hm, hempty] at h
          exact h.symm
        · simp [callApi, hres, hm, hempty] at h ⊢
          rw [← h]

/-- The outer `except` wrapper only ever surfaces a success or a
`NetworkError`; in particular never a `SessionExpired`. -/
theorem wrapTry_ne_sessionExpired (r : Except ApiError PyJson) :
    wrapTry r ≠ .error .sessionExpired := by
  cases r <;> simp [wrapTry]

/-- C7: a call supplying neither a truthy webhook nor an event fails
immediately with `ApiNotAvailable`, and no HTTP request is issued. -/
theorem claim_C7_api_not_available (d : ApiData) (now_s : Int) (now_ms apiTimeout : Nat)
    (transport : ApiRequest → ApiResponse)
    (hw : truthyStr d.webhook = none) (he : d.event = none) :
    callApi d now_s now_ms apiTimeout transport = (none, .error .apiNotAvailable) := by
  simp [callApi, resolveTarget, hw, he]

theorem claim_C7_witness :
    callApi ⟨none, none, none, some ⟨[PyJson.str "m"]⟩⟩ 0 0 5 (fun _ => ⟨200, none⟩) =
      (none, .error .apiNotAvailable) :=
  claim_C7_api_not_available ⟨none, none, none, some ⟨[PyJson.str "m"]⟩⟩ 0 0 5
    (fun _ => ⟨200, none⟩) rfl rfl

/-- C1 (amended): in session-reply mode the call fails with
`SessionExpired` — issuing no request — exactly when the current time in
whole seconds strictly exceeds the expiry converted to whole seconds
(`sessionWebhookExpiredTime` divided by 1000, truncated); at or before
that boundary (in particular at the very expiry instant) the call
proceeds and every issued request targets the event's `sessionWebhook`. -/
theorem claim_C1_session_expiry (d : ApiData) (ev : DingEvent) (now_s : Int)
    (now_ms apiTimeout : Nat) (transport : ApiRequest → ApiResponse)
    (hw : truthyStr d.webhook = none) (he : d.event = some ev) :
    (now_s > Int.tdiv ev.sessionWebhookExpiredTime 1000 →
      callApi d now_s now_ms apiTimeout transport = (none, .error .sessionExpired))
    ∧ (¬ now_s > Int.tdiv ev.sessionWebhookExpiredTime 1000 →
      ∀ req, (callApi d now_s now_ms apiTimeout transport).1 = some req →
        req.url = ev.sessionWebhook) := by
  constructor
  · intro hgt
    simp [callApi, resolveTarget, hw, he, hgt]
  · intro hle req hreq
    obtain ⟨url, params, m, hres, hm, hne, hreqeq, houtcome⟩ :=
      callApi_issued d now_s now_ms apiTimeout transport req hreq
    have : resolveTarget d now_s now_ms = .ok (ev.sessionWebhook, []) := by
      simp [resolveTarget, hw, he, hle]
    rw [this] at hres
    cases hres
    rw [hreqeq]

/-- C1 counterexample: at `now_s = 1000`, the current time is exactly at
the expiry instant (1000000 ms), yet the call does not fail with
`SessionExpired`: it issues the POST to the session webhook and succeeds. -/
theorem claim_C1_counterexample :
    callApi ⟨none, none, some evC1, some ⟨[PyJson.str "text"]⟩⟩ 1000 0 5
        (fun _ => ⟨200, some (.obj [("errcode", .num 0), ("errmsg", .str "ok")])⟩) =
      (some ⟨"POST", "https://session.example/reply", [("Content-Type", "application/json")],
          [], 5, .obj [("segments", .arr [PyJson.str "text"])]⟩,
        .ok (.obj [("errcode", .num 0), ("errmsg", .str "ok")])) := by
  decide

theorem claim_C1_witness :
    callApi ⟨none, none, some evC1, some ⟨[PyJson.str "text"]⟩⟩ 1001 0 5
        (fun _ => ⟨200, some (.obj [("errcode", .num 0), ("errmsg", .str "ok")])⟩) =
      (none, .error .sessionExpired) :=
  (claim_C1_session_expiry ⟨none, none, some evC1, some ⟨[PyJson.str "text"]⟩⟩ evC1 1001 0 5
    (fun _ => ⟨200, some (.obj [("errcode", .num 0), ("errmsg", .str "ok")])⟩) rfl rfl).1
    (by decide)

/-- C10: when both a truthy webhook and an event are supplied, every
issued request targets the explicit webhook, the whole call is unchanged
by any value of the event's session expiry (which is therefore never
consulted), and the call can never fail with `SessionExpired`. -/
theorem claim_C10_webhook_wins (d : ApiData) (w : String) (ev : DingEvent) (now_s : Int)
    (now_ms apiTimeout : Nat) (transport : ApiRequest → ApiResponse)
    (hw : truthyStr d.webhook = some w) (_he : d.event = some ev) :
    (∀ req, (callApi d now_s now_ms apiTimeout transport).1 = some req → req.url = w)
    ∧ (∀ t, callApi d now_s now_ms apiTimeout transport =
        callApi { d with event := some { ev with sessionWebhookExpiredTime := t } }
          now_s now_ms apiTimeout transport)
    ∧ (callApi d now_s now_ms apiTimeout transport).2 ≠ .error .sessionExpired := by
  have hres : ∃ params, resolveTarget d now_s now_ms = .ok (w, params) := by
    rcases hs : truthyStr d.secret with _ | sec
    · exact ⟨[], by simp [resolveTarget, hw, hs]⟩
    · exact ⟨[("timestamp", toString now_ms),
        ("sign", quotePlus (calc_hmac_base64 (toString now_ms) sec))],
        by simp [resolveTarget, hw, hs]⟩
  obtain ⟨params, hres⟩ := hres
  refine ⟨?_, ?_, ?_⟩
  · intro req hreq
    obtain ⟨url, params', m, hres', hm, hne, hreqeq, _⟩ :=
      callApi_issued d now_s now_ms apiTimeout transport req hreq
    rw [hres] at hres'
    cases hres'
    rw [hreqeq]
  · intro t
    have hres2 : resolveTarget { d with event := some { ev with sessionWebhookExpiredTime := t } }
        now_s now_ms = .ok (w, params) := by
      rcases hs : truthyStr d.secret with _ | sec <;>
        · simp only [resolveTarget, ApiData.webhook, hw, hs] at hres ⊢
          exact hres
    simp only [callApi, hres, hres2]
  · rcases hm : d.message with _ | m
    · simp [callApi, hres, hm]
    · by_cases hempty : m.segments.isEmpty
      · simp [callApi, hres, hm, hempty]
      · simp only [callApi, hres, hm, hempty, Bool.false_eq_true, if_false]
        exact wrapTry_ne_sessionExpired _

theorem claim_C10_witness :
    (∀ req, (callApi ⟨some "https://direct.example/h", none, some evC10, some ⟨[PyJson.str "x"]⟩⟩
        0 0 5 (fun _ => ⟨500, none⟩)).1 = some req → req.url = "https://direct.example/h") ∧
    (callApi ⟨some "https://direct.example/h", none, some evC10, some ⟨[PyJson.str "x"]⟩⟩
        0 0 5 (fun _ => ⟨500, none⟩)).2 ≠ .error .sessionExpired :=
  ⟨(claim_C10_webhook_wins ⟨some "https://direct.example/h", none, some evC10, some ⟨[PyJson.str "x"]⟩⟩
      "https://direct.example/h" evC10 0 0 5 (fun _ => ⟨500, none⟩) rfl rfl).1,
   (claim_C10_webhook_wins ⟨some "https://direct.example/h", none, some evC10, some ⟨[PyJson.str "x"]⟩⟩
      "https://direct.example/h" evC10 0 0 5 (fun _ => ⟨500, none⟩) rfl rfl).2.2⟩


/-- C6: a direct-webhook call with a truthy secret issues its request with
exactly the query parameters `timestamp` (the current epoch milliseconds
as a string) and `sign` (the percent-encoded signature); the `sign` value
percent-decodes back to `calc_hmac_base64(timestamp, secret)`, which
verifies under the §4.1 check for that timestamp and secret. Without a
secret, the request carries no query parameters at all. -/
theorem claim_C6_signed_params (d : ApiData) (w : String) (now_s : Int)
    (now_ms apiTimeout : Nat) (transport : ApiRequest → ApiResponse)
    (hw : truthyStr d.webhook = some w) :
    (∀ sec, truthyStr d.secret = some sec →
      ∀ req, (callApi d now_s now_ms apiTimeout transport).1 = some req →
        req.params = [("timestamp", toString now_ms),
          ("sign", quotePlus (calc_hmac_base64 (toString now_ms) sec))] ∧
        unquotePlus (quotePlus (calc_hmac_base64 (toString now_ms) sec)) =
          calc_hmac_base64 (toString now_ms) sec ∧
        check_signature sec (some (toString now_ms))
          (some (unquotePlus (quotePlus (calc_hmac_base64 (toString now_ms) sec)))) = true)
    ∧ (truthyStr d.secret = none →
      ∀ req, (callApi d now_s now_ms apiTimeout transport).1 = some req →
        req.params = []) := by
  constructor
  · intro sec hs req hreq
    obtain ⟨url, params, m, hres, hm, hne, hreqeq, _⟩ :=
      callApi_issued d now_s now_ms apiTimeout transport req hreq
    have : resolveTarget d now_s now_ms = .ok (w, [("timestamp", toString now_ms),
        ("sign", quotePlus (calc_hmac_base64 (toString now_ms) sec))]) := by
      simp [resolveTarget, hw, hs]
    rw [this] at hres
    cases hres
    refine ⟨by rw [hreqeq], unquote_quote_hmac (toString now_ms) sec, ?_⟩
    rw [unquote_quote_hmac (toString now_ms) sec]
    simp [check_signature, pyStrOpt]
  · intro hs req hreq
    obtain ⟨url, params, m, hres, hm, hne, hreqeq, _⟩ :=
      callApi_issued d now_s now_ms apiTimeout transport req hreq
    have : resolveTarget d now_s now_ms = .ok (w, []) := by
      simp [resolveTarget, hw, hs]
    rw [this] at hres
    cases hres
    rw [hreqeq]

theorem claim_C6_witness :
    reqC6.params = [("timestamp", toString (1700 : Nat)),
      ("sign", quotePlus (calc_hmac_base64 (toString (1700 : Nat)) "sec"))] ∧
    check_signature "sec" (some (toString (1700 : Nat)))
      (some (unquotePlus (quotePlus (calc_hmac_base64 (toString (1700 : Nat)) "sec")))) = true :=
  ⟨((claim_C6_signed_params dC6 "https://direct.example/hook" 0 1700 5
      (fun _ => ⟨200, some (.obj [("errcode", .num 0)])⟩) rfl).1 "sec" rfl reqC6 rfl).1,
   ((claim_C6_signed_params dC6 "https://direct.example/hook" 0 1700 5
      (fun _ => ⟨200, some (.obj [("errcode", .num 0)])⟩) rfl).1 "sec" rfl reqC6 rfl).2.2⟩

/-- C2 (amended): a 2xx response whose object body carries a nonzero
integer `errcode` makes the call raise `ActionFailed` with that code and
the body's `errmsg` — but the surrounding `try/except` wraps it, so the
exception the caller observes is `NetworkError("HTTP request failed")`
whose preserved cause is that `ActionFailed`. -/
theorem claim_C2_vendor_error_wrapped (d : ApiData) (now_s : Int) (now_ms apiTimeout : Nat)
    (transport : ApiRequest → ApiResponse) (req : ApiRequest)
    (fields : List (String × PyJson)) (k : Int)
    (hreq : (callApi d now_s now_ms apiTimeout transport).1 = some req)
    (hst : 200 ≤ (transport req).status_code) (hst2 : (transport req).status_code < 300)
    (hbody : (transport req).content = some (.obj fields))
    (hcode : jsonGet fields "errcode" = some (.num k)) (hk : k ≠ 0) :
    (callApi d now_s now_ms apiTimeout transport).2 =
      .error (.networkError "HTTP request failed"
        (some (.actionFailed (some (.num k)) (jsonGet fields "errmsg")))) := by
  obtain ⟨url, params, m, hres, hm, hne, hreqeq, houtcome⟩ :=
    callApi_issued d now_s now_ms apiTimeout transport req hreq
  rw [houtcome]
  have hnz : pyNeqZero (some (PyJson.num k)) = true := by
    simp [pyNeqZero, hk]
  simp [handleResponseBody, hst, hst2, hbody, hcode, hnz, wrapTry]

/-- C2 counterexample: on a 200 response with body
`{"errcode": 1, "errmsg": "bad"}` the exception the caller observes is
`NetworkError("HTTP request failed")` — carrying the `ActionFailed` only
as its cause — and not an `ActionFailed`, contrary to the claim. -/
theorem claim_C2_counterexample :
    (callApi dC2 0 0 5 trC2).2 =
      .error (.networkError "HTTP request failed"
        (some (.actionFailed (some (.num 1)) (some (.str "bad"))))) ∧
    (match (callApi dC2 0 0 5 trC2).2 with
      | .error e => isActionFailed e
      | .ok _ => true) = false := by
  exact ⟨by decide, by decide⟩

theorem claim_C2_witness :
    (callApi dC2 0 0 5 trC2).2 =
      .error (.networkError "HTTP request failed"
        (some (.actionFailed (some (.num 1)) (some (.str "bad"))))) :=
  claim_C2_vendor_error_wrapped dC2 0 0 5 trC2 reqC2
    [("errcode", .num 1), ("errmsg", .str "bad")] 1 rfl (by decide) (by decide) rfl
    (by decide) (by decide)
